import Mathlib

/-!
Shallow embedding of `src/nn.hpp` (the `util::nn` non-nullable pointer
wrapper) and proofs of the specification claims about it.

Modelling conventions:
* A pointer-like type `P` is embedded as a Lean type together with an
  `isNull : P → Bool` predicate (the C++ contextual conversion `!v` used by
  `nn_detail::check`).
* Raw pointers are addresses (`Nat`, null = 0); `std::unique_ptr` stores an
  address (null = 0); `std::shared_ptr` stores a control-block id plus a raw
  address (null iff the stored raw address is 0, matching
  `shared_ptr::operator bool`).
* `std::source_location` is a record of file name, line and column.
* A C++ `throw` that the construction path signals is embedded as
  `Except.error` carrying the diagnostic string; successful construction is
  `Except.ok`.
* Compile-time facets of the class (deleted members, overload availability of
  the type-converting constructors, well-formedness of instantiating a member
  template) are embedded as data computed from the declarations in the source,
  so that claims about what compiles can be stated and decided.
-/

/-- Embedding of `std::source_location`: the data the diagnostic in
`nn_detail::check` reads (`file_name()`, `line()`, `column()`). -/
structure SourceLocation where
  file_name : String
  line : Nat
  column : Nat
deriving DecidableEq

/-- `nn_detail::check` (src/nn.hpp lines 44-52): if the pointer-like value is
null-equivalent (`!v`), throw a `std::runtime_error` whose message names the
line, column and file of the construction; otherwise do nothing. The throw is
embedded as `Except.error` with the exact message built by the source. -/
def nn_detail.check {P : Type} (isNull : P → Bool) (v : P) (loc : SourceLocation) :
    Except String Unit :=
  if isNull v then
    Except.error ("nn check failed at " ++ toString loc.line ++ ":" ++
      toString loc.column ++ " of " ++ loc.file_name)
  else
    Except.ok ()

/-- The class `nn<PtrType>` (src/nn.hpp lines 90-207): its one data member is
the backing pointer `ptr` (line 206). The non-null property is not part of the
state; it is an invariant of the construction paths, proved below. -/
structure nn (P : Type) where
  ptr : P
deriving DecidableEq

/-- The checked single-argument constructor
`explicit nn(const PtrType& arg, loc)` (src/nn.hpp lines 124-133): store the
argument, then run `nn_detail::check` on the stored value. A thrown check is
an `Except.error`; otherwise the constructed handle is returned. (The rvalue
overload at lines 129-133 has the same behaviour on the moved-in value.) -/
def nn.mk_checked {P : Type} (isNull : P → Bool) (arg : P) (loc : SourceLocation) :
    Except String (nn P) :=
  match nn_detail.check isNull arg loc with
  | Except.error e => Except.error e
  | Except.ok _ => Except.ok ⟨arg⟩

/-- `operator const PtrType&() const&` / `const PtrType& as_nullable() const&`
(src/nn.hpp lines 102, 110): expose the underlying pointer value. -/
def nn.as_nullable {P : Type} (h : nn P) : P := h.ptr

/-- `element_type* get()` (src/nn.hpp lines 199-202): `return ptr.get();`,
parameterised by the underlying type's own `get` member. -/
def nn.get {P : Type} (getP : P → Nat) (h : nn P) : Nat := getP h.ptr

/-- Body of the two type-converting copy constructors (src/nn.hpp lines
140-144 and 157-159): initialise `ptr` from the source handle's exposed
underlying value, converted by the underlying types' own conversion. No call
to `nn_detail::check` occurs on this path, so it is total: it cannot fail. -/
def nn.fromOtherCopy {A B : Type} (conv : B → A) (other : nn B) : nn A :=
  ⟨conv other.ptr⟩

/-- Body of the two type-converting move constructors (src/nn.hpp lines
148-153 and 163-166): initialise `ptr` from the value moved out of the source
handle. No call to `nn_detail::check` occurs on this path. -/
def nn.fromOtherMove {A B : Type} (conv : B → A) (other : nn B) : nn A :=
  ⟨conv other.ptr⟩

/- ---------------------------------------------------------------- -/
/- Concrete pointer-like types                                       -/
/- ---------------------------------------------------------------- -/

/-- A raw pointer `T*`: an address; `nullptr` is address 0. -/
abbrev RawPtr := Nat

/-- Null test of a raw pointer (`!v` on `T*`). -/
def RawPtr.isNull (p : RawPtr) : Bool := p == 0

/-- A `std::unique_ptr<T>`: the stored address; the null (and moved-from)
state stores 0. -/
abbrev UniquePtr := Nat

/-- Null test of a `unique_ptr` (`!v`, i.e. `get() == nullptr`). -/
def UniquePtr.isNull (p : UniquePtr) : Bool := p == 0

/-- `unique_ptr::get`: the stored address. -/
def UniquePtr.get (p : UniquePtr) : Nat := p

/-- A `std::shared_ptr<T>`: a control-block id `ctrl` (ownership group) and
the stored raw address `raw`. -/
structure SharedPtr where
  ctrl : Nat
  raw : Nat
deriving DecidableEq

/-- Null test of a `shared_ptr` (`!v`, i.e. `get() == nullptr`). -/
def SharedPtr.isNull (s : SharedPtr) : Bool := s.raw == 0

/-- The null `shared_ptr` value (`return nullptr;` at src/nn.hpp line 316). -/
def nullSharedPtr : SharedPtr := ⟨0, 0⟩

/-- `shared_ptr::get`: the stored raw address. -/
def SharedPtr.get (s : SharedPtr) : Nat := s.raw

/-- The `shared_ptr` aliasing constructor `shared_ptr<T>(owner, raw)` used at
src/nn.hpp lines 307, 318, 326 (modelled from the C++ standard library, an
external collaborator of the source): share the owner's control block, store
the given raw address. -/
def SharedPtr.aliasWith (owner : SharedPtr) (raw : Nat) : SharedPtr :=
  ⟨owner.ctrl, raw⟩

/-- Move-converting a handle over a `unique_ptr` back to the underlying type
(`operator PtrType&&() &&` at src/nn.hpp line 103, `as_nullable() &&` at line
111, used to move-construct a `unique_ptr` from the handle): the target
receives the stored value, and the handle is left holding the moved-from
`unique_ptr`, which the standard defines to be null. Returns (moved-out value,
the handle afterwards). -/
def nn.moveOutUnique (h : nn UniquePtr) : UniquePtr × nn UniquePtr :=
  (h.ptr, ⟨0⟩)

/- ---------------------------------------------------------------- -/
/- Comparisons (src/nn.hpp lines 211-259)                            -/
/- ---------------------------------------------------------------- -/

/-- `operator==(const nn<L>& l, const R& r) = (l.ptr == r)` (lines 211-214),
specialised to one underlying type with primitive equality `eq`. -/
def eqHR {P : Type} (eq : P → P → Bool) (l : nn P) (r : P) : Bool := eq l.ptr r

/-- `operator==(const L& l, const nn<R>& r) = (l == r.ptr)` (lines 215-218). -/
def eqRH {P : Type} (eq : P → P → Bool) (l : P) (r : nn P) : Bool := eq l r.ptr

/-- `operator==(const nn<L>& l, const nn<R>& r) = (l.ptr == r.ptr)` (lines
219-222). -/
def eqHH {P : Type} (eq : P → P → Bool) (l : nn P) (r : nn P) : Bool :=
  eq l.ptr r.ptr

/-- `operator<(const nn<L>& l, const R& r) = (l.ptr < r)` (lines 223-226). -/
def ltHR {P : Type} (lt : P → P → Bool) (l : nn P) (r : P) : Bool := lt l.ptr r

/-- `operator<(const L& l, const nn<R>& r) = (l < r.ptr)` (lines 227-230). -/
def ltRH {P : Type} (lt : P → P → Bool) (l : P) (r : nn P) : Bool := lt l r.ptr

/-- `operator<(const nn<L>& l, const nn<R>& r) = (l.ptr < r.ptr)` (lines
231-234). -/
def ltHH {P : Type} (lt : P → P → Bool) (l : nn P) (r : nn P) : Bool :=
  lt l.ptr r.ptr

/-- `NN_DERIVED_OPERATORS(>, r < l)`, handle/raw shape: `l > r` is `r < l`,
which resolves to the raw/handle `<` overload. -/
def gtHR {P : Type} (lt : P → P → Bool) (l : nn P) (r : P) : Bool := ltRH lt r l

/-- `NN_DERIVED_OPERATORS(>, r < l)`, raw/handle shape. -/
def gtRH {P : Type} (lt : P → P → Bool) (l : P) (r : nn P) : Bool := ltHR lt r l

/-- `NN_DERIVED_OPERATORS(>, r < l)`, handle/handle shape. -/
def gtHH {P : Type} (lt : P → P → Bool) (l : nn P) (r : nn P) : Bool :=
  ltHH lt r l

/-- `NN_DERIVED_OPERATORS(<=, !(l > r))`, handle/raw shape. -/
def leHR {P : Type} (lt : P → P → Bool) (l : nn P) (r : P) : Bool :=
  !(gtHR lt l r)

/-- `NN_DERIVED_OPERATORS(<=, !(l > r))`, raw/handle shape. -/
def leRH {P : Type} (lt : P → P → Bool) (l : P) (r : nn P) : Bool :=
  !(gtRH lt l r)

/-- `NN_DERIVED_OPERATORS(<=, !(l > r))`, handle/handle shape. -/
def leHH {P : Type} (lt : P → P → Bool) (l : nn P) (r : nn P) : Bool :=
  !(gtHH lt l r)

/-- `NN_DERIVED_OPERATORS(>=, !(l < r))`, handle/raw shape. -/
def geHR {P : Type} (lt : P → P → Bool) (l : nn P) (r : P) : Bool :=
  !(ltHR lt l r)

/-- `NN_DERIVED_OPERATORS(>=, !(l < r))`, raw/handle shape. -/
def geRH {P : Type} (lt : P → P → Bool) (l : P) (r : nn P) : Bool :=
  !(ltRH lt l r)

/-- `NN_DERIVED_OPERATORS(>=, !(l < r))`, handle/handle shape. -/
def geHH {P : Type} (lt : P → P → Bool) (l : nn P) (r : nn P) : Bool :=
  !(ltHH lt l r)

/-- `NN_DERIVED_OPERATORS(!=, !(l == r))`, handle/raw shape. -/
def neHR {P : Type} (eq : P → P → Bool) (l : nn P) (r : P) : Bool :=
  !(eqHR eq l r)

/-- `NN_DERIVED_OPERATORS(!=, !(l == r))`, raw/handle shape. -/
def neRH {P : Type} (eq : P → P → Bool) (l : P) (r : nn P) : Bool :=
  !(eqRH eq l r)

/-- `NN_DERIVED_OPERATORS(!=, !(l == r))`, handle/handle shape. -/
def neHH {P : Type} (eq : P → P → Bool) (l : nn P) (r : nn P) : Bool :=
  !(eqHH eq l r)

/- ---------------------------------------------------------------- -/
/- Hashing (src/nn.hpp lines 334-339)                                -/
/- ---------------------------------------------------------------- -/

/-- `std::hash<util::nn<T>>::operator()` = `std::hash<T>{}(obj.as_nullable())`,
parameterised by the underlying type's hash. -/
def nnHash {P : Type} (hashP : P → Nat) (h : nn P) : Nat :=
  hashP h.as_nullable

/- ---------------------------------------------------------------- -/
/- Runtime types and the dynamic cast (src/nn.hpp lines 311-320)     -/
/- ---------------------------------------------------------------- -/

/-- The runtime-type context of the C++ program: a single-inheritance class
hierarchy (each class id has at most one parent), the dynamic type of the
object stored at each address, and a bound on the hierarchy's depth. -/
structure TypeEnv where
  parent : Nat → Option Nat
  typeOf : Nat → Nat
  depth : Nat

/-- Whether class `c` is class `t` or derives from it, following parent links
for at most `fuel` steps. -/
def derivesFrom (env : TypeEnv) : Nat → Nat → Nat → Bool
  | 0, c, t => c == t
  | fuel + 1, c, t =>
    c == t ||
      match env.parent c with
      | none => false
      | some p => derivesFrom env fuel p t

/-- The built-in `dynamic_cast<T*>(p)` used at src/nn.hpp line 314 (modelled
from the C++ language semantics, an external collaborator of the source): on
a null pointer it yields null; otherwise it yields the pointer itself when
the dynamic type of the referent is `t` or derives from it, and null when
the runtime type check fails. -/
def dynamicCastRaw (env : TypeEnv) (t : Nat) (p : Nat) : Nat :=
  if p == 0 then 0
  else if derivesFrom env env.depth (env.typeOf p) t then p
  else 0

/-- `nn_dynamic_pointer_cast<T>` (src/nn.hpp lines 311-320): run
`dynamic_cast` on `org_ptr.get()`; if it fails return the null shared_ptr,
otherwise return the aliasing `shared_ptr<T>(org_ptr.as_nullable(), raw_ptr)`.
The function is pure: the original handle is passed by value and untouched. -/
def nn_dynamic_pointer_cast (env : TypeEnv) (t : Nat) (org : nn SharedPtr) :
    SharedPtr :=
  let raw_ptr := dynamicCastRaw env t (nn.get SharedPtr.get org)
  if raw_ptr == 0 then nullSharedPtr
  else SharedPtr.aliasWith org.as_nullable raw_ptr

/- ---------------------------------------------------------------- -/
/- Allocation and the factories (src/nn.hpp lines 267-275)           -/
/- ---------------------------------------------------------------- -/

/-- The allocator and heap: `next` is the last handed-out address, `mem` the
stored integer value at each address. Fresh addresses are `next + 1, ...`, so
allocation never returns the null address 0. -/
structure Store where
  next : Nat
  mem : Nat → Int

/-- Allocate a fresh cell holding `v`; returns the (non-null) fresh address
and the updated store. -/
def Store.alloc (st : Store) (v : Int) : Nat × Store :=
  let a := st.next + 1
  (a, ⟨a, fun x => if x = a then v else st.mem x⟩)

/-- `std::make_unique<T>(v)` (modelled from the C++ standard library, an
external collaborator of the source): a unique_ptr owning freshly allocated
storage holding `v`. -/
def make_unique (st : Store) (v : Int) : UniquePtr × Store := st.alloc v

/-- `std::make_shared<T>(v)` (modelled from the C++ standard library): a
shared_ptr with a fresh control block owning freshly allocated storage. -/
def make_shared (st : Store) (v : Int) : SharedPtr × Store :=
  let (a, st2) := st.alloc v
  (⟨a, a⟩, st2)

/-- `nn_make_unique<T>(v)` (src/nn.hpp lines 267-270): wrap the result of
`std::make_unique` in the checked `nn_unique_ptr<T>` constructor. -/
def nn_make_unique (st : Store) (v : Int) (loc : SourceLocation) :
    Except String (nn UniquePtr) × Store :=
  let (p, st2) := make_unique st v
  (nn.mk_checked UniquePtr.isNull p loc, st2)

/-- `nn_make_shared<T>(v)` (src/nn.hpp lines 272-275): wrap the result of
`std::make_shared` in the checked `nn_shared_ptr<T>` constructor. -/
def nn_make_shared (st : Store) (v : Int) (loc : SourceLocation) :
    Except String (nn SharedPtr) × Store :=
  let (p, st2) := make_shared st v
  (nn.mk_checked SharedPtr.isNull p loc, st2)

/-- Dereferencing a handle over a unique_ptr (`operator*` at src/nn.hpp line
98): read the pointee from the store. -/
def derefUnique (st : Store) (h : nn UniquePtr) : Int := st.mem h.ptr

/- ---------------------------------------------------------------- -/
/- Compile-time facets: converting constructors, get(), deleted      -/
/- members (src/nn.hpp lines 116-122, 140-166, 199-202)              -/
/- ---------------------------------------------------------------- -/

/-- The type traits a pair (PtrType, OtherType) presents to the `requires`
clauses of the four type-converting constructors:
`std::is_constructible_v<PtrType, OtherType>`,
`std::is_convertible_v<OtherType, PtrType>`, and
`std::is_pointer_v<OtherType>`. -/
structure ConvTraits where
  constructible : Bool
  convertible : Bool
  otherIsRawPointer : Bool
deriving DecidableEq

/-- Constraint of the explicit converting copy constructor (src/nn.hpp lines
140-144): constructible but not implicitly convertible. -/
def explicitCopyCtorOk (t : ConvTraits) : Bool :=
  t.constructible && !t.convertible

/-- Constraint of the explicit converting move constructor (src/nn.hpp lines
148-153): constructible, not implicitly convertible, source not a raw
pointer. -/
def explicitMoveCtorOk (t : ConvTraits) : Bool :=
  t.constructible && !t.convertible && !t.otherIsRawPointer

/-- Constraint of the implicit converting copy constructor (src/nn.hpp lines
157-159): implicitly convertible. -/
def implicitCopyCtorOk (t : ConvTraits) : Bool := t.convertible

/-- Constraint of the implicit converting move constructor (src/nn.hpp lines
163-166): implicitly convertible and source not a raw pointer. -/
def implicitMoveCtorOk (t : ConvTraits) : Bool :=
  t.convertible && !t.otherIsRawPointer

/-- A converting copy construction compiles iff either copy constructor's
constraint holds. -/
def copyCtorAvailable (t : ConvTraits) : Bool :=
  explicitCopyCtorOk t || implicitCopyCtorOk t

/-- A converting move construction compiles iff either move constructor's
constraint holds. -/
def moveCtorAvailable (t : ConvTraits) : Bool :=
  explicitMoveCtorOk t || implicitMoveCtorOk t

/-- Compile-time shape of an underlying pointer-like type, as far as
instantiating `nn<PtrType>::get` is concerned: whether it is a raw pointer
and whether it has a member function named `get`. -/
structure PtrTypeDesc where
  isRawPointer : Bool
  hasGetMember : Bool
deriving DecidableEq

/-- Whether the body of `nn::get` (src/nn.hpp lines 199-202), which is
`return ptr.get();`, is well-formed for an underlying type of shape `d`: a
member call compiles exactly when the type has that member. -/
def nnGetWellFormed (d : PtrTypeDesc) : Bool := d.hasGetMember

/-- A raw pointer `T*`: a scalar type, so it has no member functions at all
(in particular no `get`). -/
def rawPtrDesc : PtrTypeDesc := ⟨true, false⟩

/-- `std::unique_ptr<T>`: a class type providing a `get()` member. -/
def uniquePtrDesc : PtrTypeDesc := ⟨false, true⟩

/-- `std::shared_ptr<T>`: a class type providing a `get()` member. -/
def sharedPtrDesc : PtrTypeDesc := ⟨false, true⟩

/-- Status of a member in the class's declaration set. -/
inductive MemberStatus where
  | available
  | deleted
  | absent
deriving DecidableEq

/-- A member can be used (selected without making the program ill-formed)
only when it is declared and not deleted. -/
def MemberStatus.usable : MemberStatus → Bool
  | MemberStatus.available => true
  | _ => false

/-- `operator bool() const = delete;` (src/nn.hpp line 116): declared and
deleted, so a contextual conversion of a handle to bool selects it and is
ill-formed. -/
def nnOperatorBool : MemberStatus := MemberStatus.deleted

/-- `nn(std::nullptr_t) = delete;` (src/nn.hpp line 121): for a null-literal
argument this exact-match overload beats every constructor requiring a
conversion, so construction from a null literal selects it and is
ill-formed. -/
def nnCtorFromNullLiteral : MemberStatus := MemberStatus.deleted

/-- `nn& operator=(std::nullptr_t) = delete;` (src/nn.hpp line 122):
assignment from a null literal selects it and is ill-formed. -/
def nnAssignFromNullLiteral : MemberStatus := MemberStatus.deleted

/- ---------------------------------------------------------------- -/
/- Theorems                                                          -/
/- ---------------------------------------------------------------- -/

/-- Inverting a successful checked construction: the argument passed the null
check and the handle stores exactly that argument. -/
theorem nn.mk_checked_ok_inv {P : Type} {isNull : P → Bool} {arg : P}
    {loc : SourceLocation} {h : nn P}
    (hc : nn.mk_checked isNull arg loc = Except.ok h) :
    isNull arg = false ∧ h = ⟨arg⟩ := by
  unfold nn.mk_checked nn_detail.check at hc
  by_cases hn : isNull arg = true
  · simp [hn] at hc
  · refine ⟨by simpa using hn, ?_⟩
    simp [Bool.not_eq_true] at hn
    simp [hn] at hc
    exact hc.symm

/-- C1: the checked single-argument constructor rejects every null-equivalent
value with a diagnostic naming the line, column and file of the construction
and produces no handle; for every non-null value it produces a handle storing
exactly that value. -/
theorem nn_checked_construction_spec {P : Type} (isNull : P → Bool) (arg : P)
    (loc : SourceLocation) :
    (isNull arg = true →
      nn.mk_checked isNull arg loc =
        Except.error ("nn check failed at " ++ toString loc.line ++ ":" ++
          toString loc.column ++ " of " ++ loc.file_name)) ∧
    (isNull arg = false →
      nn.mk_checked isNull arg loc = Except.ok ⟨arg⟩) := by
  constructor
  · intro hn
    simp [nn.mk_checked, nn_detail.check, hn]
  · intro hn
    simp [nn.mk_checked, nn_detail.check, hn]

/-- Witness for C1: constructing from the null raw pointer at line 10, column
3 of main.cpp fails with the exact diagnostic; constructing from the non-null
raw pointer 5 succeeds and stores 5. -/
theorem nn_checked_construction_witness :
    nn.mk_checked RawPtr.isNull 0 ⟨"main.cpp", 10, 3⟩ =
      Except.error ("nn check failed at " ++ toString 10 ++ ":" ++
        toString 3 ++ " of " ++ "main.cpp") ∧
    nn.mk_checked RawPtr.isNull 5 ⟨"main.cpp", 10, 3⟩ = Except.ok ⟨5⟩ :=
  ⟨(nn_checked_construction_spec RawPtr.isNull 0 ⟨"main.cpp", 10, 3⟩).1 rfl,
   (nn_checked_construction_spec RawPtr.isNull 5 ⟨"main.cpp", 10, 3⟩).2 rfl⟩

/-- C2 counterexample: the stored value is NOT non-null for the entire
lifetime of the handle. The handle over the unique_ptr 5 is successfully
constructed, yet after the rvalue move-conversion back to the underlying type
(src/nn.hpp line 103) the still-alive source handle stores the moved-from
unique_ptr, which is null. -/
theorem nn_invariant_move_counterexample :
    nn.mk_checked UniquePtr.isNull 5 ⟨"a.cpp", 1, 1⟩ = Except.ok ⟨5⟩ ∧
    UniquePtr.isNull (nn.moveOutUnique ⟨5⟩).2.ptr = true := by
  constructor
  · rfl
  · rfl

/-- C2 (amended): for every successfully constructed handle the stored value
is non-null, and it stays non-null through every operation other than being
moved from: the lvalue conversion/`as_nullable` merely reads the stored value,
the type-converting constructor paths receive only already-non-null values
(and preserve non-nullness whenever the underlying conversion does), and the
value handed out by the rvalue move-conversion is the original non-null
value — only the source handle itself is left in the moved-from (null for
unique_ptr) state that must not be used again. -/
theorem nn_invariant_spec {P A : Type} (isNull : P → Bool) (isNullA : A → Bool)
    (conv : P → A) (arg : P) (loc : SourceLocation) (h : nn P)
    (hc : nn.mk_checked isNull arg loc = Except.ok h)
    (hconv : ∀ x, isNull x = false → isNullA (conv x) = false) :
    isNull h.ptr = false ∧
    h.as_nullable = h.ptr ∧
    isNullA (nn.fromOtherCopy conv h).ptr = false ∧
    isNullA (nn.fromOtherMove conv h).ptr = false ∧
    (∀ hu : nn UniquePtr, (nn.moveOutUnique hu).1 = hu.ptr) := by
  obtain ⟨hnull, hval⟩ := nn.mk_checked_ok_inv hc
  subst hval
  exact ⟨hnull, rfl, hconv arg hnull, hconv arg hnull, fun _ => rfl⟩

/-- Witness for C2 (amended): the handle over the unique_ptr 7, converted to a
shared_ptr sharing control block 1, keeps every non-nullness fact of the
amended claim. -/
theorem nn_invariant_witness :
    UniquePtr.isNull (nn.ptr ⟨7⟩) = false ∧
    nn.as_nullable (⟨7⟩ : nn UniquePtr) = nn.ptr ⟨7⟩ ∧
    SharedPtr.isNull (nn.fromOtherCopy (fun a => SharedPtr.mk 1 a) ⟨7⟩).ptr = false ∧
    SharedPtr.isNull (nn.fromOtherMove (fun a => SharedPtr.mk 1 a) ⟨7⟩).ptr = false ∧
    (∀ hu : nn UniquePtr, (nn.moveOutUnique hu).1 = hu.ptr) :=
  nn_invariant_spec UniquePtr.isNull SharedPtr.isNull
    (fun a => SharedPtr.mk 1 a) 7 ⟨"a.cpp", 2, 2⟩ ⟨7⟩ rfl
    (fun x hx => by simpa [SharedPtr.isNull, UniquePtr.isNull] using hx)

/-- C3: comparison transparency and derivation. For handles built from `a`
and `b`, `==` and `<` agree with the underlying comparisons in all three
operand shapes (handle/handle, handle/raw, raw/handle); and in every shape
`!=` is the negation of `==`, `>` is `<` with the operands flipped, `<=` is
the negation of `>`, and `>=` is the negation of `<`. -/
theorem nn_comparison_spec {P : Type} (isNull : P → Bool)
    (eq lt : P → P → Bool) (a b : P) (loc1 loc2 : SourceLocation)
    (ha hb : nn P)
    (hca : nn.mk_checked isNull a loc1 = Except.ok ha)
    (hcb : nn.mk_checked isNull b loc2 = Except.ok hb) :
    (eqHH eq ha hb = eq a b ∧ eqHR eq ha b = eq a b ∧ eqRH eq a hb = eq a b) ∧
    (ltHH lt ha hb = lt a b ∧ ltHR lt ha b = lt a b ∧ ltRH lt a hb = lt a b) ∧
    (∀ l r : nn P, neHH eq l r = !(eqHH eq l r)) ∧
    (∀ (l : nn P) (r : P), neHR eq l r = !(eqHR eq l r)) ∧
    (∀ (l : P) (r : nn P), neRH eq l r = !(eqRH eq l r)) ∧
    (∀ l r : nn P, gtHH lt l r = ltHH lt r l) ∧
    (∀ (l : nn P) (r : P), gtHR lt l r = ltRH lt r l) ∧
    (∀ (l : P) (r : nn P), gtRH lt l r = ltHR lt r l) ∧
    (∀ l r : nn P, leHH lt l r = !(gtHH lt l r)) ∧
    (∀ (l : nn P) (r : P), leHR lt l r = !(gtHR lt l r)) ∧
    (∀ (l : P) (r : nn P), leRH lt l r = !(gtRH lt l r)) ∧
    (∀ l r : nn P, geHH lt l r = !(ltHH lt l r)) ∧
    (∀ (l : nn P) (r : P), geHR lt l r = !(ltHR lt l r)) ∧
    (∀ (l : P) (r : nn P), geRH lt l r = !(ltRH lt l r)) := by
  obtain ⟨-, hva⟩ := nn.mk_checked_ok_inv hca
  obtain ⟨-, hvb⟩ := nn.mk_checked_ok_inv hcb
  subst hva
  subst hvb
  refine ⟨⟨rfl, rfl, rfl⟩, ⟨rfl, rfl, rfl⟩, ?_⟩
  exact ⟨fun _ _ => rfl, fun _ _ => rfl, fun _ _ => rfl, fun _ _ => rfl,
    fun _ _ => rfl, fun _ _ => rfl, fun _ _ => rfl, fun _ _ => rfl,
    fun _ _ => rfl, fun _ _ => rfl, fun _ _ => rfl, fun _ _ => rfl⟩

/-- Witness for C3: over raw pointers 1 and 2 compared with `==` and `<`, the
handle/handle equality and less-than agree with the raw comparisons. -/
theorem nn_comparison_witness :
    eqHH (fun x y : RawPtr => x == y) (⟨1⟩ : nn RawPtr) ⟨2⟩ = ((1 : Nat) == 2) ∧
    ltHH (fun x y : RawPtr => decide (x < y)) (⟨1⟩ : nn RawPtr) ⟨2⟩ =
      decide ((1 : Nat) < 2) :=
  ⟨(nn_comparison_spec RawPtr.isNull (fun x y => x == y)
      (fun x y => decide (x < y)) 1 2 ⟨"m.cpp", 1, 1⟩ ⟨"m.cpp", 2, 1⟩
      ⟨1⟩ ⟨2⟩ rfl rfl).1.1,
   (nn_comparison_spec RawPtr.isNull (fun x y => x == y)
      (fun x y => decide (x < y)) 1 2 ⟨"m.cpp", 1, 1⟩ ⟨"m.cpp", 2, 1⟩
      ⟨1⟩ ⟨2⟩ rfl rfl).2.1.1⟩

/-- C4: for every non-null shared handle, `nn_dynamic_pointer_cast<T>`
returns a nullable shared_ptr that is non-null exactly when the runtime type
of the referent is (or derives from) `T`; on success the result shares the
original's control block (and address), on failure it is the null shared_ptr.
The original handle is passed by value to a pure function, so it is
unaffected in every case. -/
theorem nn_dynamic_pointer_cast_spec (env : TypeEnv) (t : Nat)
    (org : nn SharedPtr) (hnn : SharedPtr.isNull org.ptr = false) :
    (SharedPtr.isNull (nn_dynamic_pointer_cast env t org) = false ↔
      derivesFrom env env.depth (env.typeOf org.ptr.raw) t = true) ∧
    (derivesFrom env env.depth (env.typeOf org.ptr.raw) t = true →
      nn_dynamic_pointer_cast env t org = ⟨org.ptr.ctrl, org.ptr.raw⟩) ∧
    (derivesFrom env env.depth (env.typeOf org.ptr.raw) t = false →
      nn_dynamic_pointer_cast env t org = nullSharedPtr) := by
  simp only [SharedPtr.isNull, beq_eq_false_iff_ne, ne_eq] at hnn
  by_cases hd : derivesFrom env env.depth (env.typeOf org.ptr.raw) t = true
  · constructor
    · simp [nn_dynamic_pointer_cast, dynamicCastRaw, nn.get, SharedPtr.get,
        nn.as_nullable, SharedPtr.aliasWith, SharedPtr.isNull, hd, hnn]
    · constructor
      · intro _
        simp [nn_dynamic_pointer_cast, dynamicCastRaw, nn.get, SharedPtr.get,
          nn.as_nullable, SharedPtr.aliasWith, hd, hnn]
      · intro hcontra
        rw [hd] at hcontra
        exact absurd hcontra (by simp)
  · rw [Bool.not_eq_true] at hd
    constructor
    · simp [nn_dynamic_pointer_cast, dynamicCastRaw, nn.get, SharedPtr.get,
        nullSharedPtr, SharedPtr.isNull, hd, hnn]
    · constructor
      · intro hcontra
        rw [hd] at hcontra
        exact absurd hcontra (by simp)
      · intro _
        simp [nn_dynamic_pointer_cast, dynamicCastRaw, nn.get, SharedPtr.get,
          nullSharedPtr, hd, hnn]

/-- Witness for C4: in a hierarchy where class 2 derives from class 1, with
the object at address 5 of dynamic type 2, casting the non-null shared handle
(control block 7, address 5) to class 1 succeeds and shares control block 7. -/
theorem nn_dynamic_pointer_cast_witness :
    nn_dynamic_pointer_cast
      ⟨fun c => if c = 2 then some 1 else none, fun a => if a = 5 then 2 else 1, 4⟩
      1 ⟨⟨7, 5⟩⟩ = ⟨7, 5⟩ :=
  (nn_dynamic_pointer_cast_spec
      ⟨fun c => if c = 2 then some 1 else none, fun a => if a = 5 then 2 else 1, 4⟩
      1 ⟨⟨7, 5⟩⟩ (by decide)).2.1 (by decide)

/-- C5: the factories never fail the null check: `nn_make_unique` always
yields a handle storing the fresh (non-null) address whose dereference reads
back the stored value, and `nn_make_shared` always yields a non-null handle;
in particular allocating the integer 42 via the unique-ownership factory
yields a handle dereferencing to 42. -/
theorem nn_make_factories_spec (st : Store) (v : Int) (loc : SourceLocation) :
    (nn_make_unique st v loc).1 = Except.ok ⟨st.next + 1⟩ ∧
    UniquePtr.isNull (st.next + 1) = false ∧
    derefUnique (nn_make_unique st v loc).2 ⟨st.next + 1⟩ = v ∧
    (nn_make_shared st v loc).1 = Except.ok ⟨⟨st.next + 1, st.next + 1⟩⟩ ∧
    SharedPtr.isNull ⟨st.next + 1, st.next + 1⟩ = false ∧
    derefUnique (nn_make_unique st 42 loc).2 ⟨st.next + 1⟩ = 42 := by
  refine ⟨?_, by simp [UniquePtr.isNull], ?_, ?_, by simp [SharedPtr.isNull], ?_⟩
  · simp [nn_make_unique, make_unique, Store.alloc, nn.mk_checked,
      nn_detail.check, UniquePtr.isNull]
  · simp [nn_make_unique, make_unique, Store.alloc, derefUnique]
  · simp [nn_make_shared, make_shared, Store.alloc, nn.mk_checked,
      nn_detail.check, SharedPtr.isNull]
  · simp [nn_make_unique, make_unique, Store.alloc, derefUnique]

/-- C6: a converting copy construction of `nn<PtrType>` from `nn<OtherType>`
is available exactly when PtrType is constructible from OtherType; a
converting move construction exactly when additionally OtherType is not a raw
pointer; the implicit constructors are the ones whose constraint is exactly
implicit convertibility (again minus raw pointers for the move); and the
bodies of all four constructors store the converted value unconditionally —
they are total and never invoke `nn_detail::check`. (The hypothesis is the
C++ type-trait fact that implicit convertibility implies constructibility.) -/
theorem nn_converting_ctor_spec (t : ConvTraits)
    (hcv : t.convertible = true → t.constructible = true) :
    copyCtorAvailable t = t.constructible ∧
    moveCtorAvailable t = (t.constructible && !t.otherIsRawPointer) ∧
    implicitCopyCtorOk t = t.convertible ∧
    implicitMoveCtorOk t = (t.convertible && !t.otherIsRawPointer) ∧
    (∀ (A B : Type) (conv : B → A) (other : nn B),
      nn.fromOtherCopy conv other = ⟨conv other.ptr⟩ ∧
      nn.fromOtherMove conv other = ⟨conv other.ptr⟩) := by
  obtain ⟨c, v, p⟩ := t
  refine ⟨?_, ?_, rfl, rfl, fun _ _ _ _ => ⟨rfl, rfl⟩⟩ <;>
    cases c <;> cases v <;> cases p <;>
      simp_all [copyCtorAvailable, moveCtorAvailable, explicitCopyCtorOk,
        explicitMoveCtorOk, implicitCopyCtorOk, implicitMoveCtorOk]

/-- Witness for C6: when the underlying types are constructible, implicitly
convertible, and the source is not a raw pointer, both converting
constructions are available. -/
theorem nn_converting_ctor_witness :
    copyCtorAvailable ⟨true, true, false⟩ = true ∧
    moveCtorAvailable ⟨true, true, false⟩ = true :=
  ⟨(nn_converting_ctor_spec ⟨true, true, false⟩ (fun _ => rfl)).1,
   (nn_converting_ctor_spec ⟨true, true, false⟩ (fun _ => rfl)).2.1⟩

/-- C7: hashing a handle produces exactly the hash of the underlying value it
was constructed from: `hash(handle(a)) = hash(a)` for every non-null `a`. -/
theorem nn_hash_spec {P : Type} (isNull : P → Bool) (hashP : P → Nat) (a : P)
    (loc : SourceLocation) (h : nn P)
    (hc : nn.mk_checked isNull a loc = Except.ok h) :
    nnHash hashP h = hashP a := by
  obtain ⟨-, hv⟩ := nn.mk_checked_ok_inv hc
  subst hv
  rfl

/-- Witness for C7: the handle over raw pointer 21 hashes, under the hash
doubling the address, to the hash of 21 itself. -/
theorem nn_hash_witness :
    nnHash (fun p : RawPtr => p * 2) ⟨21⟩ = 21 * 2 :=
  nn_hash_spec RawPtr.isNull (fun p => p * 2) 21 ⟨"h.cpp", 1, 1⟩ ⟨21⟩ rfl

/-- C8: converting a handle back to its underlying type (`as_nullable`, whose
body is the same as the lvalue conversion operator) and re-wrapping the
result through the checked constructor succeeds and yields a handle equal, by
the underlying type's equality, to the original handle. (The hypothesis
`heq` is reflexivity of the underlying equality at the stored value.) -/
theorem nn_rewrap_spec {P : Type} (isNull : P → Bool) (eq : P → P → Bool)
    (a : P) (loc loc2 : SourceLocation) (h : nn P)
    (hc : nn.mk_checked isNull a loc = Except.ok h)
    (heq : eq a a = true) :
    nn.mk_checked isNull h.as_nullable loc2 = Except.ok ⟨a⟩ ∧
    eqHH eq ⟨a⟩ h = true := by
  obtain ⟨hnull, hv⟩ := nn.mk_checked_ok_inv hc
  subst hv
  constructor
  · simp [nn.as_nullable, nn.mk_checked, nn_detail.check, hnull]
  · exact heq

/-- Witness for C8: unwrapping the handle over raw pointer 3 and re-wrapping
succeeds and the result equals the original handle under raw equality. -/
theorem nn_rewrap_witness :
    nn.mk_checked RawPtr.isNull (nn.as_nullable (⟨3⟩ : nn RawPtr))
        ⟨"r.cpp", 2, 1⟩ = Except.ok ⟨3⟩ ∧
    eqHH (fun x y : RawPtr => x == y) ⟨3⟩ ⟨3⟩ = true :=
  nn_rewrap_spec RawPtr.isNull (fun x y => x == y) 3
    ⟨"r.cpp", 1, 1⟩ ⟨"r.cpp", 2, 1⟩ ⟨3⟩ rfl rfl

/-- C9 counterexample: for a handle over a raw pointer type, `nn::get` is not
usable at all: its body `return ptr.get();` requires the underlying type to
have a `get` member, and a raw pointer, being a scalar type, has none, so the
instantiation is ill-formed instead of returning the raw address. -/
theorem nn_get_raw_pointer_counterexample :
    nnGetWellFormed rawPtrDesc = false := rfl

/-- C9 (amended): for every handle whose underlying type provides a `get()`
member (every smart pointer, e.g. unique_ptr and shared_ptr), `get()` is
well-formed and returns exactly the raw pointee address stored by the
underlying pointer, as a pure (hence ownership-preserving, always-succeeding)
observation; for raw-pointer handles the instantiation of `get()` is
ill-formed. -/
theorem nn_get_spec :
    nnGetWellFormed uniquePtrDesc = true ∧
    nnGetWellFormed sharedPtrDesc = true ∧
    nnGetWellFormed rawPtrDesc = false ∧
    (∀ h : nn UniquePtr, nn.get UniquePtr.get h = h.ptr) ∧
    (∀ h : nn SharedPtr, nn.get SharedPtr.get h = h.ptr.raw) :=
  ⟨rfl, rfl, rfl, fun _ => rfl, fun _ => rfl⟩

/-- C10: the boolean conversion, the constructor from a null literal and the
assignment from a null literal are all declared as deleted members, so every
attempt to use one selects a deleted function and fails to compile — none of
them is usable at runtime. -/
theorem nn_compile_time_null_rejection :
    nnOperatorBool = MemberStatus.deleted ∧
    nnCtorFromNullLiteral = MemberStatus.deleted ∧
    nnAssignFromNullLiteral = MemberStatus.deleted ∧
    MemberStatus.usable nnOperatorBool = false ∧
    MemberStatus.usable nnCtorFromNullLiteral = false ∧
    MemberStatus.usable nnAssignFromNullLiteral = false :=
  ⟨rfl, rfl, rfl, rfl, rfl, rfl⟩
